import Mathlib

/-!
Shallow embedding of the Open Ephys `PhaseDetector` plugin
(`Plugins/PhaseDetector/PhaseDetector.cpp`) and proofs about its
per-sample phase-classification state machine.

Modelling conventions:
* `float` samples are modelled as `Rat`.  The detector only ever *compares*
  samples (`<`, `>`, `<=`, `>=` against each other and against `0`); it never
  performs arithmetic on them, so any linearly ordered field models the
  comparisons faithfully, and the concrete literals used below
  (`0.5`, `-0.4`, ...) are exactly representable.
* `int` / `int64` become `Int`; the `uint32` sample count becomes `Nat`;
  the `uint64` TTL word becomes a `Nat` reduced mod `2 ^ 64` where the code
  performs 64-bit arithmetic (the shift `1ULL << L` is modelled as
  `(1 <<< L) % 2 ^ 64`, which agrees with the hardware value for `L < 64`;
  the registered TTL-line parameters range over `-1 .. 15`).
* An emitted TTL event is recorded as the block-relative sample offset that
  is handed to `addEvent` (the absolute sample number of the event is
  `firstSampleInBlock + offset`), the TTL line, the boolean state, and a tag
  remembering which of the three emission sites produced it (landmark
  trigger-on via `createEvent true`, pulse-width timeout off via
  `createEvent false`, line clear via `clearOutputLine`).
* `samplesSinceTrigger` is a C `int`; the code only resets it to `0` or
  increments it while it is `<= 2000`, so `Int` models it with no overflow.
-/

/-- `DetectorType` from the plugin: the configured target landmark. -/
inductive DetectorType
  | PEAK
  | FALLING_ZERO
  | TROUGH
  | RISING_ZERO
deriving DecidableEq, Repr

/-- `PhaseType` from the plugin: the phase memory of the state machine. -/
inductive PhaseType
  | NO_PHASE
  | FALLING_POS
  | FALLING_NEG
  | RISING_NEG
  | RISING_POS
deriving DecidableEq, Repr

/-- Per-stream mutable state, mirroring `PhaseDetectorSettings` field by
field (the `eventChannel` pointer, pure plumbing for event construction,
is omitted). -/
structure PhaseDetectorSettings where
  samplesSinceTrigger : Int
  lastSample : Rat
  isActive : Bool
  wasTriggered : Bool
  detectorType : DetectorType
  currentPhase : PhaseType
  triggerChannel : Int
  outputLine : Int
  gateLine : Int
  lastOutputLine : Int
  outputLineChanged : Bool
  lastTTLWord : Nat
deriving DecidableEq, Repr

/-- The `PhaseDetectorSettings()` constructor. -/
def initialSettings : PhaseDetectorSettings :=
  { samplesSinceTrigger := 0
    lastSample := 0
    isActive := true
    wasTriggered := false
    detectorType := .PEAK
    currentPhase := .NO_PHASE
    triggerChannel := 0
    outputLine := 0
    gateLine := -1
    lastOutputLine := 0
    outputLineChanged := false
    lastTTLWord := 0 }

/-- Which of the three `addEvent` call sites produced an event. -/
inductive EventKind
  | TRIGGER_ON
  | TRIGGER_OFF
  | LINE_CLEAR
deriving DecidableEq, Repr

/-- One emitted TTL event: block-relative sample offset (the index passed
to `addEvent`), TTL line, state, and emission site. -/
structure TTLEventRec where
  offset : Nat
  line : Int
  state : Bool
  kind : EventKind
deriving DecidableEq, Repr

/-- `PhaseDetectorSettings::createEvent`: builds a TTL event on
`outputLine` and updates the trigger bookkeeping. -/
def PhaseDetectorSettings.createEvent (m : PhaseDetectorSettings) (offset : Nat) (state : Bool) :
    PhaseDetectorSettings × TTLEventRec :=
  ((if state then { m with samplesSinceTrigger := 0, wasTriggered := true }
    else { m with wasTriggered := false }),
   { offset := offset
     line := m.outputLine
     state := state
     kind := if state then .TRIGGER_ON else .TRIGGER_OFF })

/-- `PhaseDetectorSettings::clearOutputLine`: builds an off event on
`lastOutputLine` and clears the one-shot flag. -/
def PhaseDetectorSettings.clearOutputLine (m : PhaseDetectorSettings) (offset : Nat) :
    PhaseDetectorSettings × TTLEventRec :=
  ({ m with outputLineChanged := false },
   { offset := offset
     line := m.lastOutputLine
     state := false
     kind := .LINE_CLEAR })

/-- A configuration change delivered to `PhaseDetector::parameterValueChanged`.
For the `"channel"` parameter the host resolves the selected local channel to
a global index; an empty selection yields `none`. -/
inductive ParamChange
  | phase (v : DetectorType)
  | channel (globalIndex : Option Int)
  | ttlOut (v : Int)
  | gateLine (v : Int)

/-- `PhaseDetector::parameterValueChanged`, restricted to one stream's
settings (the function indexes `settings` by the parameter's stream id;
each stream's state is updated independently). -/
def parameterValueChanged (m : PhaseDetectorSettings) : ParamChange → PhaseDetectorSettings
  | .phase v => { m with detectorType := v }
  | .channel (some g) => { m with triggerChannel := g }
  | .channel none => { m with triggerChannel := -1 }
  | .ttlOut v =>
      { m with lastOutputLine := m.outputLine, outputLine := v, outputLineChanged := true }
  | .gateLine v =>
      if 0 ≤ v then
        { m with gateLine := v
                 isActive := decide ((m.lastTTLWord &&& ((1 <<< v.toNat) % 2 ^ 64)) ≠ 0) }
      else
        { m with gateLine := v, isActive := true }

/-- `PhaseDetector::handleTTLEvent`, restricted to one stream's settings. -/
def handleTTLEvent (m : PhaseDetectorSettings) (line : Int) (state : Bool) (word : Nat) :
    PhaseDetectorSettings :=
  let m1 := { m with lastTTLWord := word % 2 ^ 64 }
  if -1 < m1.gateLine then
    if m1.gateLine = line then { m1 with isActive := state } else m1
  else m1

/-- The four-branch landmark classification from the top of the per-sample
loop of `PhaseDetector::process` (lines 217-284). -/
def landmarkStep (m : PhaseDetectorSettings) (sample : Rat) (i : Nat) :
    PhaseDetectorSettings × List TTLEventRec :=
  if sample < m.lastSample ∧ sample > 0 ∧ m.currentPhase ≠ .FALLING_POS then
    if m.detectorType = .PEAK then
      let a := m.createEvent i true
      ({ a.1 with currentPhase := .FALLING_POS }, [a.2])
    else ({ m with currentPhase := .FALLING_POS }, [])
  else if sample < 0 ∧ m.lastSample ≥ 0 ∧ m.currentPhase ≠ .FALLING_NEG then
    if m.detectorType = .FALLING_ZERO then
      let a := m.createEvent i true
      ({ a.1 with currentPhase := .FALLING_NEG }, [a.2])
    else ({ m with currentPhase := .FALLING_NEG }, [])
  else if sample > m.lastSample ∧ sample < 0 ∧ m.currentPhase ≠ .RISING_NEG then
    if m.detectorType = .TROUGH then
      let a := m.createEvent i true
      ({ a.1 with currentPhase := .RISING_NEG }, [a.2])
    else ({ m with currentPhase := .RISING_NEG }, [])
  else if sample > 0 ∧ m.lastSample ≤ 0 ∧ m.currentPhase ≠ .RISING_POS then
    if m.detectorType = .RISING_ZERO then
      let a := m.createEvent i true
      ({ a.1 with currentPhase := .RISING_POS }, [a.2])
    else ({ m with currentPhase := .RISING_POS }, [])
  else (m, [])

/-- The pulse-width timeout check of the per-sample loop (lines 288-304). -/
def timeoutStep (m : PhaseDetectorSettings) (i : Nat) :
    PhaseDetectorSettings × List TTLEventRec :=
  if m.wasTriggered then
    if m.samplesSinceTrigger > 2000 then
      let a := m.createEvent i false
      (a.1, [a.2])
    else ({ m with samplesSinceTrigger := m.samplesSinceTrigger + 1 }, [])
  else (m, [])

/-- The output-line-change check of the per-sample loop (lines 306-312). -/
def lineClearStep (m : PhaseDetectorSettings) (i : Nat) :
    PhaseDetectorSettings × List TTLEventRec :=
  if m.outputLineChanged then
    let a := m.clearOutputLine i
    (a.1, [a.2])
  else (m, [])

/-- One iteration of the per-sample loop body of `PhaseDetector::process`:
landmark classification, then `lastSample = sample` (line 286), then the
timeout check, then the line-clear check. -/
def processSample (m : PhaseDetectorSettings) (sample : Rat) (i : Nat) :
    PhaseDetectorSettings × List TTLEventRec :=
  let a := landmarkStep m sample i
  let m1 := { a.1 with lastSample := sample }
  let b := timeoutStep m1 i
  let c := lineClearStep b.1 i
  (c.1, a.2 ++ b.2 ++ c.2)

/-- The state after one loop iteration (it does not depend on the sample
offset, which only flows into the emitted events). -/
def stepState (m : PhaseDetectorSettings) (sample : Rat) : PhaseDetectorSettings :=
  (processSample m sample 0).1

/-- The per-sample loop (lines 213-313), processing the samples of the
trigger channel starting at block offset `i`. -/
def processLoop :
    PhaseDetectorSettings → List Rat → Nat → PhaseDetectorSettings × List TTLEventRec
  | m, [], _ => (m, [])
  | m, sample :: rest, i =>
      let a := processSample m sample i
      let b := processLoop a.1 rest (i + 1)
      (b.1, a.2 ++ b.2)

/-- One block of input: channel count of the audio buffer, sample count of
the stream's block, and the per-channel sample data
(`buffer.getReadPointer(channel, i)`). -/
structure AudioBlock where
  numChannels : Int
  numSamples : Nat
  read : Int → Nat → Rat

/-- The sample sequence of one channel of a block. -/
def blockSamples (b : AudioBlock) (channel : Int) : List Rat :=
  (List.range b.numSamples).map (b.read channel)

/-- The emission precondition of `PhaseDetector::process` (lines 209-211). -/
def emitGuard (m : PhaseDetectorSettings) (numChannels : Int) : Bool :=
  m.isActive && decide (m.outputLine ≥ 0) && decide (m.triggerChannel ≥ 0)
    && decide (m.triggerChannel < numChannels)

/-- The end-of-block check of `PhaseDetector::process` (lines 316-322): if
the pulse is still on and the channel is unset or the detector inactive,
force a `TRIGGER_OFF` at the block's first sample (`addEvent(ptr, 0)`). -/
def endOfBlock (a : PhaseDetectorSettings × List TTLEventRec) :
    PhaseDetectorSettings × List TTLEventRec :=
  if a.1.wasTriggered && (decide (a.1.triggerChannel < 0) || !a.1.isActive) then
    let c := a.1.createEvent 0 false
    (c.1, a.2 ++ [c.2])
  else a

/-- `PhaseDetector::process` for one enabled stream: run the guarded
per-sample loop (lines 209-314), then the end-of-block forced off. -/
def processBlock (m : PhaseDetectorSettings) (b : AudioBlock) :
    PhaseDetectorSettings × List TTLEventRec :=
  endOfBlock
    (if emitGuard m b.numChannels then processLoop m (blockSamples b m.triggerChannel) 0
     else (m, []))

/-- Repeated invocations of `process` on successive blocks of a stream. -/
def processBlocks :
    PhaseDetectorSettings → List AudioBlock → PhaseDetectorSettings × List TTLEventRec
  | m, [] => (m, [])
  | m, b :: rest =>
      let a := processBlock m b
      let r := processBlocks a.1 rest
      (r.1, a.2 ++ r.2)

/-- Which landmark branch (identified by the phase it sets) fires on
`sample`, mirroring the branch conditions of `landmarkStep`. -/
def firedPhase (m : PhaseDetectorSettings) (sample : Rat) : Option PhaseType :=
  if sample < m.lastSample ∧ sample > 0 ∧ m.currentPhase ≠ .FALLING_POS then some .FALLING_POS
  else if sample < 0 ∧ m.lastSample ≥ 0 ∧ m.currentPhase ≠ .FALLING_NEG then some .FALLING_NEG
  else if sample > m.lastSample ∧ sample < 0 ∧ m.currentPhase ≠ .RISING_NEG then some .RISING_NEG
  else if sample > 0 ∧ m.lastSample ≤ 0 ∧ m.currentPhase ≠ .RISING_POS then some .RISING_POS
  else none

/-- The detector type whose configured target corresponds to the phase a
branch sets. -/
def phaseTarget : PhaseType → Option DetectorType
  | .NO_PHASE => none
  | .FALLING_POS => some .PEAK
  | .FALLING_NEG => some .FALLING_ZERO
  | .RISING_NEG => some .TROUGH
  | .RISING_POS => some .RISING_ZERO

/-- Whether the sample fires the branch of the configured target landmark
(the only situation in which the loop emits a `TRIGGER_ON`). -/
def isTargetMatch (m : PhaseDetectorSettings) (sample : Rat) : Bool :=
  match firedPhase m sample with
  | some ph => decide (phaseTarget ph = some m.detectorType)
  | none => false

/-- A run of samples along which the target landmark never fires. -/
def NoTargetMatchRun : PhaseDetectorSettings → List Rat → Bool
  | _, [] => true
  | m, s :: rest => !isTargetMatch m s && NoTargetMatchRun (stepState m s) rest

/-- A run of samples along which every fired landmark branch is the one
setting phase `ph` (the waveform never crosses a different landmark type). -/
def SameLandmarkRun (ph : PhaseType) : PhaseDetectorSettings → List Rat → Bool
  | _, [] => true
  | m, s :: rest =>
      (decide (firedPhase m s = none) || decide (firedPhase m s = some ph))
        && SameLandmarkRun ph (stepState m s) rest

/-- The `TRIGGER_ON` events of an emission sequence. -/
def onEvents (l : List TTLEventRec) : List TTLEventRec :=
  l.filter fun e => decide (e.kind = .TRIGGER_ON)

/-- The `TRIGGER_OFF` events of an emission sequence. -/
def offEvents (l : List TTLEventRec) : List TTLEventRec :=
  l.filter fun e => decide (e.kind = .TRIGGER_OFF)

/-- The `LINE_CLEAR` events of an emission sequence. -/
def clearEvents (l : List TTLEventRec) : List TTLEventRec :=
  l.filter fun e => decide (e.kind = .LINE_CLEAR)

/-- Rank of an event kind in the fixed same-offset emission order. -/
def kindRank : EventKind → Nat
  | .TRIGGER_ON => 0
  | .TRIGGER_OFF => 1
  | .LINE_CLEAR => 2

/-- Emission order: ascending offsets, and at equal offsets the fixed order
landmark trigger, timeout off, line clear. -/
def EventLE (e1 e2 : TTLEventRec) : Prop :=
  e1.offset < e2.offset ∨ (e1.offset = e2.offset ∧ kindRank e1.kind ≤ kindRank e2.kind)

/-- The detector state of the C1 scenario: target landmark `TROUGH`,
output line 3, trigger channel 0, otherwise the constructor state. -/
def c1Settings : PhaseDetectorSettings :=
  { initialSettings with detectorType := .TROUGH, outputLine := 3 }

/-- The input block of the C1 scenario. -/
def c1Block : AudioBlock :=
  { numChannels := 1
    numSamples := 6
    read := fun _ i => [(0.5 : Rat), 0.3, -0.1, -0.4, -0.2, 0.1].getD i 0 }

/-- The detector state of the C3 pulse-width witness: target `TROUGH`,
previous sample `-2`, untriggered. -/
def c3Settings : PhaseDetectorSettings :=
  { initialSettings with detectorType := .TROUGH, lastSample := -2 }

/-- The detector state of the C9 retrigger witness: target `TROUGH`,
previous sample `-2`, a pulse already open with counter 1900. -/
def c9Settings : PhaseDetectorSettings :=
  { initialSettings with
      detectorType := .TROUGH
      lastSample := -2
      wasTriggered := true
      samplesSinceTrigger := 1900 }

/-- C2 counterexample state: pulse open, detector active, trigger channel 5
(out of range for a 1-channel buffer but not negative). -/
def c2Settings : PhaseDetectorSettings :=
  { initialSettings with wasTriggered := true, triggerChannel := 5 }

/-- A 1-channel, 0-sample block. -/
def c2Block : AudioBlock :=
  { numChannels := 1, numSamples := 0, read := fun _ _ => 0 }

/-- C2 witness state: pulse open, detector inactive. -/
def c2wSettings : PhaseDetectorSettings :=
  { initialSettings with wasTriggered := true, isActive := false }

/-- C4 counterexample state: detector inactive, otherwise the constructor
state (`lastSample = 0`). -/
def c4Settings : PhaseDetectorSettings :=
  { initialSettings with isActive := false }

/-- A 1-channel block holding the single sample `1`. -/
def c4Block : AudioBlock :=
  { numChannels := 1, numSamples := 1, read := fun _ _ => 1 }

/-- A 1-channel block holding the single sample `1` (used by C5). -/
def c5Block : AudioBlock :=
  { numChannels := 1, numSamples := 1, read := fun _ _ => 1 }

/-- C5 counterexample state: gate line 3 with a zero TTL word (inactive),
then the output line reconfigured from 0 to 5 (flag set). -/
def c5mInactive : PhaseDetectorSettings :=
  parameterValueChanged (parameterValueChanged initialSettings (.gateLine 3)) (.ttlOut 5)

/-- C5 counterexample state after one block was processed while inactive and
the gate was then disabled (detector active again). -/
def c5mReactivated : PhaseDetectorSettings :=
  parameterValueChanged (processBlock c5mInactive c5Block).1 (.gateLine (-1))

/-- The detector state of the C6 oscillation witness: target `TROUGH`,
previous sample `-1`. -/
def c6Settings : PhaseDetectorSettings :=
  { initialSettings with detectorType := .TROUGH, lastSample := -1 }

/-- C1: the block `[0.5, 0.3, -0.1, -0.4, -0.2, 0.1]` with target `TROUGH`
on output line 3 emits exactly one event: a `TRIGGER_ON` at offset 4 (the
`-0.4 → -0.2` transition) on line 3. -/
theorem c1_trough_scenario :
    (processBlock c1Settings c1Block).2 =
      [{ offset := 4, line := 3, state := true, kind := .TRIGGER_ON }] := by
  with_unfolding_all decide

/-- The configuration fields that the per-sample loop never writes. -/
def ConfigEq (m m' : PhaseDetectorSettings) : Prop :=
  m'.isActive = m.isActive ∧ m'.triggerChannel = m.triggerChannel
    ∧ m'.outputLine = m.outputLine ∧ m'.lastOutputLine = m.lastOutputLine
    ∧ m'.detectorType = m.detectorType ∧ m'.gateLine = m.gateLine
    ∧ m'.lastTTLWord = m.lastTTLWord

theorem configEq_refl (m : PhaseDetectorSettings) : ConfigEq m m := by
  unfold ConfigEq; simp

theorem configEq_trans {m1 m2 m3 : PhaseDetectorSettings}
    (h1 : ConfigEq m1 m2) (h2 : ConfigEq m2 m3) : ConfigEq m1 m3 := by
  unfold ConfigEq at *
  obtain ⟨a1, a2, a3, a4, a5, a6, a7⟩ := h1
  obtain ⟨b1, b2, b3, b4, b5, b6, b7⟩ := h2
  exact ⟨b1.trans a1, b2.trans a2, b3.trans a3, b4.trans a4, b5.trans a5,
    b6.trans a6, b7.trans a7⟩

theorem configEq_landmarkStep (m : PhaseDetectorSettings) (sample : Rat) (i : Nat) :
    ConfigEq m (landmarkStep m sample i).1 := by
  unfold landmarkStep PhaseDetectorSettings.createEvent ConfigEq
  split_ifs <;> simp

theorem configEq_timeoutStep (m : PhaseDetectorSettings) (i : Nat) :
    ConfigEq m (timeoutStep m i).1 := by
  unfold timeoutStep PhaseDetectorSettings.createEvent ConfigEq
  split_ifs <;> simp

theorem configEq_lineClearStep (m : PhaseDetectorSettings) (i : Nat) :
    ConfigEq m (lineClearStep m i).1 := by
  unfold lineClearStep PhaseDetectorSettings.clearOutputLine ConfigEq
  split_ifs <;> simp

theorem configEq_setLastSample (m : PhaseDetectorSettings) (s : Rat) :
    ConfigEq m { m with lastSample := s } := by
  unfold ConfigEq; simp


theorem processSample_decompose (m : PhaseDetectorSettings) (sample : Rat) (i : Nat) :
    processSample m sample i =
      ((lineClearStep
          (timeoutStep { (landmarkStep m sample i).1 with lastSample := sample } i).1 i).1,
        (landmarkStep m sample i).2
          ++ (timeoutStep { (landmarkStep m sample i).1 with lastSample := sample } i).2
          ++ (lineClearStep
              (timeoutStep { (landmarkStep m sample i).1 with lastSample := sample } i).1 i).2) :=
  rfl

theorem configEq_processSample (m : PhaseDetectorSettings) (sample : Rat) (i : Nat) :
    ConfigEq m (processSample m sample i).1 := by
  rw [processSample_decompose]
  exact configEq_trans
    (configEq_trans
      (configEq_trans (configEq_landmarkStep m sample i)
        (configEq_setLastSample (landmarkStep m sample i).1 sample))
      (configEq_timeoutStep _ i))
    (configEq_lineClearStep _ i)

theorem configEq_processLoop (samples : List Rat) :
    ∀ (m : PhaseDetectorSettings) (i : Nat), ConfigEq m (processLoop m samples i).1 := by
  induction samples with
  | nil => intro m i; exact configEq_refl m
  | cons s rest ih =>
      intro m i
      exact configEq_trans (configEq_processSample m s i) (ih (processSample m s i).1 (i + 1))

theorem landmarkStep_fst (m : PhaseDetectorSettings) (sample : Rat) (i j : Nat) :
    (landmarkStep m sample i).1 = (landmarkStep m sample j).1 := by
  unfold landmarkStep PhaseDetectorSettings.createEvent
  split_ifs <;> rfl

theorem timeoutStep_fst (m : PhaseDetectorSettings) (i j : Nat) :
    (timeoutStep m i).1 = (timeoutStep m j).1 := by
  unfold timeoutStep PhaseDetectorSettings.createEvent
  split_ifs <;> rfl

theorem lineClearStep_fst (m : PhaseDetectorSettings) (i j : Nat) :
    (lineClearStep m i).1 = (lineClearStep m j).1 := by
  unfold lineClearStep PhaseDetectorSettings.clearOutputLine
  split_ifs <;> rfl

theorem stepState_eq (m : PhaseDetectorSettings) (sample : Rat) (i : Nat) :
    (processSample m sample i).1 = stepState m sample := by
  unfold stepState
  rw [processSample_decompose, processSample_decompose,
    landmarkStep_fst m sample i 0, timeoutStep_fst _ i 0, lineClearStep_fst _ i 0]

theorem isTargetMatch_fired {m : PhaseDetectorSettings} {sample : Rat} {ph : PhaseType}
    (h : firedPhase m sample = some ph) :
    isTargetMatch m sample = decide (phaseTarget ph = some m.detectorType) := by
  unfold isTargetMatch
  rw [h]

theorem isTargetMatch_none {m : PhaseDetectorSettings} {sample : Rat}
    (h : firedPhase m sample = none) : isTargetMatch m sample = false := by
  unfold isTargetMatch
  rw [h]

theorem landmarkStep_none (m : PhaseDetectorSettings) (sample : Rat) (i : Nat)
    (h : firedPhase m sample = none) : landmarkStep m sample i = (m, []) := by
  unfold landmarkStep
  unfold firedPhase at h
  split_ifs at h ⊢ <;> simp_all

theorem landmarkStep_fired_target (m : PhaseDetectorSettings) (sample : Rat) (i : Nat)
    (ph : PhaseType) (h : firedPhase m sample = some ph) (ht : isTargetMatch m sample = true) :
    landmarkStep m sample i =
      ({ m with samplesSinceTrigger := 0, wasTriggered := true, currentPhase := ph },
       [{ offset := i, line := m.outputLine, state := true, kind := .TRIGGER_ON }]) := by
  have ht2 : phaseTarget ph = some m.detectorType := by
    have := (isTargetMatch_fired h).symm.trans ht
    exact of_decide_eq_true this
  unfold landmarkStep
  unfold firedPhase at h
  split_ifs at h ⊢ <;>
    (try (injection h with hinj; subst hinj)) <;>
    simp_all [phaseTarget, PhaseDetectorSettings.createEvent]

theorem landmarkStep_fired_nontarget (m : PhaseDetectorSettings) (sample : Rat) (i : Nat)
    (ph : PhaseType) (h : firedPhase m sample = some ph) (ht : isTargetMatch m sample = false) :
    landmarkStep m sample i = ({ m with currentPhase := ph }, []) := by
  have ht2 : ¬ phaseTarget ph = some m.detectorType := by
    have := (isTargetMatch_fired h).symm.trans ht
    exact of_decide_eq_false this
  unfold landmarkStep
  unfold firedPhase at h
  split_ifs at h ⊢ <;>
    (try (injection h with hinj; subst hinj)) <;>
    simp_all [phaseTarget, PhaseDetectorSettings.createEvent]

theorem timeoutStep_not_triggered (m : PhaseDetectorSettings) (i : Nat)
    (h : m.wasTriggered = false) : timeoutStep m i = (m, []) := by
  simp [timeoutStep, h]

theorem timeoutStep_low (m : PhaseDetectorSettings) (i : Nat)
    (h : m.wasTriggered = true) (h2 : ¬ m.samplesSinceTrigger > 2000) :
    timeoutStep m i = ({ m with samplesSinceTrigger := m.samplesSinceTrigger + 1 }, []) := by
  simp [timeoutStep, h, h2]

theorem timeoutStep_high (m : PhaseDetectorSettings) (i : Nat)
    (h : m.wasTriggered = true) (h2 : m.samplesSinceTrigger > 2000) :
    timeoutStep m i =
      ({ m with wasTriggered := false },
       [{ offset := i, line := m.outputLine, state := false, kind := .TRIGGER_OFF }]) := by
  unfold timeoutStep PhaseDetectorSettings.createEvent
  split_ifs <;> (try contradiction) <;> simp_all

theorem lineClearStep_off (m : PhaseDetectorSettings) (i : Nat)
    (h : m.outputLineChanged = false) : lineClearStep m i = (m, []) := by
  simp [lineClearStep, h]

theorem lineClearStep_on (m : PhaseDetectorSettings) (i : Nat)
    (h : m.outputLineChanged = true) :
    lineClearStep m i =
      ({ m with outputLineChanged := false },
       [{ offset := i, line := m.lastOutputLine, state := false, kind := .LINE_CLEAR }]) := by
  simp [lineClearStep, PhaseDetectorSettings.clearOutputLine, h]

theorem onEvents_append (l1 l2 : List TTLEventRec) :
    onEvents (l1 ++ l2) = onEvents l1 ++ onEvents l2 := by
  simp [onEvents, List.filter_append]

theorem offEvents_append (l1 l2 : List TTLEventRec) :
    offEvents (l1 ++ l2) = offEvents l1 ++ offEvents l2 := by
  simp [offEvents, List.filter_append]

theorem clearEvents_append (l1 l2 : List TTLEventRec) :
    clearEvents (l1 ++ l2) = clearEvents l1 ++ clearEvents l2 := by
  simp [clearEvents, List.filter_append]

theorem onEvents_timeoutStep (m : PhaseDetectorSettings) (i : Nat) :
    onEvents (timeoutStep m i).2 = [] := by
  unfold timeoutStep PhaseDetectorSettings.createEvent
  split_ifs <;> (try contradiction) <;> simp_all [onEvents]

theorem onEvents_lineClearStep (m : PhaseDetectorSettings) (i : Nat) :
    onEvents (lineClearStep m i).2 = [] := by
  unfold lineClearStep PhaseDetectorSettings.clearOutputLine
  split_ifs <;> simp [onEvents]

theorem offEvents_landmarkStep (m : PhaseDetectorSettings) (sample : Rat) (i : Nat) :
    offEvents (landmarkStep m sample i).2 = [] := by
  unfold landmarkStep PhaseDetectorSettings.createEvent
  split_ifs <;> simp_all [offEvents]

theorem offEvents_lineClearStep (m : PhaseDetectorSettings) (i : Nat) :
    offEvents (lineClearStep m i).2 = [] := by
  unfold lineClearStep PhaseDetectorSettings.clearOutputLine
  split_ifs <;> simp [offEvents]

theorem clearEvents_landmarkStep (m : PhaseDetectorSettings) (sample : Rat) (i : Nat) :
    clearEvents (landmarkStep m sample i).2 = [] := by
  unfold landmarkStep PhaseDetectorSettings.createEvent
  split_ifs <;> simp_all [clearEvents]

theorem clearEvents_timeoutStep (m : PhaseDetectorSettings) (i : Nat) :
    clearEvents (timeoutStep m i).2 = [] := by
  unfold timeoutStep PhaseDetectorSettings.createEvent
  split_ifs <;> simp [clearEvents]

theorem lineClearStep_keeps (m : PhaseDetectorSettings) (i : Nat) :
    (lineClearStep m i).1.wasTriggered = m.wasTriggered
      ∧ (lineClearStep m i).1.samplesSinceTrigger = m.samplesSinceTrigger
      ∧ (lineClearStep m i).1.currentPhase = m.currentPhase
      ∧ (lineClearStep m i).1.lastSample = m.lastSample := by
  unfold lineClearStep PhaseDetectorSettings.clearOutputLine
  split_ifs <;> simp

theorem timeoutStep_keeps (m : PhaseDetectorSettings) (i : Nat) :
    (timeoutStep m i).1.currentPhase = m.currentPhase
      ∧ (timeoutStep m i).1.lastSample = m.lastSample
      ∧ (timeoutStep m i).1.outputLineChanged = m.outputLineChanged := by
  unfold timeoutStep PhaseDetectorSettings.createEvent
  split_ifs <;> simp

theorem landmarkStep_keeps (m : PhaseDetectorSettings) (sample : Rat) (i : Nat) :
    (landmarkStep m sample i).1.outputLineChanged = m.outputLineChanged
      ∧ (landmarkStep m sample i).1.lastSample = m.lastSample := by
  unfold landmarkStep PhaseDetectorSettings.createEvent
  split_ifs <;> simp

theorem onEvents_nil : onEvents [] = [] := rfl

theorem offEvents_nil : offEvents [] = [] := rfl

theorem clearEvents_nil : clearEvents [] = [] := rfl

theorem onEvents_single_on (o : Nat) (l : Int) (s : Bool) :
    onEvents [{ offset := o, line := l, state := s, kind := .TRIGGER_ON }] =
      [{ offset := o, line := l, state := s, kind := .TRIGGER_ON }] := by
  simp [onEvents]

theorem offEvents_single_on (o : Nat) (l : Int) (s : Bool) :
    offEvents [{ offset := o, line := l, state := s, kind := .TRIGGER_ON }] = [] := by
  simp [offEvents]

theorem clearEvents_single_on (o : Nat) (l : Int) (s : Bool) :
    clearEvents [{ offset := o, line := l, state := s, kind := .TRIGGER_ON }] = [] := by
  simp [clearEvents]

theorem onEvents_single_off (o : Nat) (l : Int) (s : Bool) :
    onEvents [{ offset := o, line := l, state := s, kind := .TRIGGER_OFF }] = [] := by
  simp [onEvents]

theorem offEvents_single_off (o : Nat) (l : Int) (s : Bool) :
    offEvents [{ offset := o, line := l, state := s, kind := .TRIGGER_OFF }] =
      [{ offset := o, line := l, state := s, kind := .TRIGGER_OFF }] := by
  simp [offEvents]

theorem clearEvents_single_off (o : Nat) (l : Int) (s : Bool) :
    clearEvents [{ offset := o, line := l, state := s, kind := .TRIGGER_OFF }] = [] := by
  simp [clearEvents]

theorem onEvents_single_clear (o : Nat) (l : Int) (s : Bool) :
    onEvents [{ offset := o, line := l, state := s, kind := .LINE_CLEAR }] = [] := by
  simp [onEvents]

theorem offEvents_single_clear (o : Nat) (l : Int) (s : Bool) :
    offEvents [{ offset := o, line := l, state := s, kind := .LINE_CLEAR }] = [] := by
  simp [offEvents]

theorem clearEvents_single_clear (o : Nat) (l : Int) (s : Bool) :
    clearEvents [{ offset := o, line := l, state := s, kind := .LINE_CLEAR }] =
      [{ offset := o, line := l, state := s, kind := .LINE_CLEAR }] := by
  simp [clearEvents]


theorem onEvents_cons_on (o : Nat) (l : Int) (b : Bool) (rest : List TTLEventRec) :
    onEvents ({ offset := o, line := l, state := b, kind := .TRIGGER_ON } :: rest) =
      { offset := o, line := l, state := b, kind := .TRIGGER_ON } :: onEvents rest := by
  simp [onEvents]

theorem offEvents_cons_on (o : Nat) (l : Int) (b : Bool) (rest : List TTLEventRec) :
    offEvents ({ offset := o, line := l, state := b, kind := .TRIGGER_ON } :: rest) =
      offEvents rest := by
  simp [offEvents]

theorem clearEvents_cons_on (o : Nat) (l : Int) (b : Bool) (rest : List TTLEventRec) :
    clearEvents ({ offset := o, line := l, state := b, kind := .TRIGGER_ON } :: rest) =
      clearEvents rest := by
  simp [clearEvents]

theorem onEvents_cons_off (o : Nat) (l : Int) (b : Bool) (rest : List TTLEventRec) :
    onEvents ({ offset := o, line := l, state := b, kind := .TRIGGER_OFF } :: rest) =
      onEvents rest := by
  simp [onEvents]

theorem offEvents_cons_off (o : Nat) (l : Int) (b : Bool) (rest : List TTLEventRec) :
    offEvents ({ offset := o, line := l, state := b, kind := .TRIGGER_OFF } :: rest) =
      { offset := o, line := l, state := b, kind := .TRIGGER_OFF } :: offEvents rest := by
  simp [offEvents]

theorem clearEvents_cons_off (o : Nat) (l : Int) (b : Bool) (rest : List TTLEventRec) :
    clearEvents ({ offset := o, line := l, state := b, kind := .TRIGGER_OFF } :: rest) =
      clearEvents rest := by
  simp [clearEvents]

theorem onEvents_cons_clear (o : Nat) (l : Int) (b : Bool) (rest : List TTLEventRec) :
    onEvents ({ offset := o, line := l, state := b, kind := .LINE_CLEAR } :: rest) =
      onEvents rest := by
  simp [onEvents]

theorem offEvents_cons_clear (o : Nat) (l : Int) (b : Bool) (rest : List TTLEventRec) :
    offEvents ({ offset := o, line := l, state := b, kind := .LINE_CLEAR } :: rest) =
      offEvents rest := by
  simp [offEvents]

theorem clearEvents_cons_clear (o : Nat) (l : Int) (b : Bool) (rest : List TTLEventRec) :
    clearEvents ({ offset := o, line := l, state := b, kind := .LINE_CLEAR } :: rest) =
      { offset := o, line := l, state := b, kind := .LINE_CLEAR } :: clearEvents rest := by
  simp [clearEvents]


theorem landmarkStep_nontarget_keeps (m : PhaseDetectorSettings) (sample : Rat) (i : Nat)
    (hm : isTargetMatch m sample = false) :
    (landmarkStep m sample i).1.wasTriggered = m.wasTriggered
      ∧ (landmarkStep m sample i).1.samplesSinceTrigger = m.samplesSinceTrigger
      ∧ (landmarkStep m sample i).2 = [] := by
  rcases hfp : firedPhase m sample with _ | ph
  · rw [landmarkStep_none m sample i hfp]; exact ⟨rfl, rfl, rfl⟩
  · rw [landmarkStep_fired_nontarget m sample i ph hfp hm]; exact ⟨rfl, rfl, rfl⟩

theorem landmarkStep_target_info (m : PhaseDetectorSettings) (sample : Rat) (i : Nat)
    (hm : isTargetMatch m sample = true) :
    (landmarkStep m sample i).2 =
        [{ offset := i, line := m.outputLine, state := true, kind := .TRIGGER_ON }]
      ∧ (landmarkStep m sample i).1.wasTriggered = true
      ∧ (landmarkStep m sample i).1.samplesSinceTrigger = 0 := by
  rcases hfp : firedPhase m sample with _ | ph
  · rw [isTargetMatch_none hfp] at hm; cases hm
  · rw [landmarkStep_fired_target m sample i ph hfp hm]; exact ⟨rfl, rfl, rfl⟩

theorem landmarkStep_currentPhase_some (m : PhaseDetectorSettings) (sample : Rat) (i : Nat)
    (ph : PhaseType) (hfp : firedPhase m sample = some ph) :
    (landmarkStep m sample i).1.currentPhase = ph := by
  rcases hm : isTargetMatch m sample with _ | _
  · rw [landmarkStep_fired_nontarget m sample i ph hfp hm]
  · rw [landmarkStep_fired_target m sample i ph hfp hm]

theorem firedPhase_ne (m : PhaseDetectorSettings) (sample : Rat) (ph : PhaseType)
    (h : firedPhase m sample = some ph) : m.currentPhase ≠ ph := by
  unfold firedPhase at h
  split_ifs at h <;> first
    | (injection h with h2; subst h2; simp_all)
    | (injection h)

theorem stepState_currentPhase_none (m : PhaseDetectorSettings) (sample : Rat)
    (hfp : firedPhase m sample = none) :
    (stepState m sample).currentPhase = m.currentPhase := by
  unfold stepState
  rw [processSample_decompose]
  rw [(lineClearStep_keeps _ 0).2.2.1, (timeoutStep_keeps _ 0).1]
  rw [landmarkStep_none m sample 0 hfp]

theorem stepState_currentPhase_some (m : PhaseDetectorSettings) (sample : Rat) (ph : PhaseType)
    (hfp : firedPhase m sample = some ph) :
    (stepState m sample).currentPhase = ph := by
  unfold stepState
  rw [processSample_decompose]
  rw [(lineClearStep_keeps _ 0).2.2.1, (timeoutStep_keeps _ 0).1]
  exact landmarkStep_currentPhase_some m sample 0 ph hfp

theorem processSample_quiet_untriggered (m : PhaseDetectorSettings) (sample : Rat) (i : Nat)
    (hm : isTargetMatch m sample = false) (ht : m.wasTriggered = false) :
    onEvents (processSample m sample i).2 = []
      ∧ offEvents (processSample m sample i).2 = []
      ∧ (processSample m sample i).1.wasTriggered = false
      ∧ (processSample m sample i).1.samplesSinceTrigger = m.samplesSinceTrigger := by
  obtain ⟨k1, k2, k3⟩ := landmarkStep_nontarget_keeps m sample i hm
  rw [processSample_decompose]
  have hw : ({ (landmarkStep m sample i).1 with lastSample := sample }).wasTriggered = false :=
    k1.trans ht
  rw [timeoutStep_not_triggered _ i hw, k3]
  refine ⟨?_, ?_, ?_, ?_⟩
  · simp [onEvents_append, onEvents_lineClearStep, onEvents_nil]
  · simp [offEvents_append, offEvents_lineClearStep, offEvents_nil]
  · rw [(lineClearStep_keeps _ i).1]; exact hw
  · rw [(lineClearStep_keeps _ i).2.1]; exact k2

theorem processSample_quiet_low (m : PhaseDetectorSettings) (sample : Rat) (i : Nat)
    (hm : isTargetMatch m sample = false) (ht : m.wasTriggered = true)
    (hc : ¬ m.samplesSinceTrigger > 2000) :
    onEvents (processSample m sample i).2 = []
      ∧ offEvents (processSample m sample i).2 = []
      ∧ (processSample m sample i).1.wasTriggered = true
      ∧ (processSample m sample i).1.samplesSinceTrigger = m.samplesSinceTrigger + 1 := by
  obtain ⟨k1, k2, k3⟩ := landmarkStep_nontarget_keeps m sample i hm
  rw [processSample_decompose]
  have hw : ({ (landmarkStep m sample i).1 with lastSample := sample }).wasTriggered = true :=
    k1.trans ht
  have hcc : ¬ ({ (landmarkStep m sample i).1 with lastSample := sample }).samplesSinceTrigger
      > 2000 := by
    show ¬ (landmarkStep m sample i).1.samplesSinceTrigger > 2000
    rw [k2]; exact hc
  rw [timeoutStep_low _ i hw hcc, k3]
  refine ⟨?_, ?_, ?_, ?_⟩
  · simp [onEvents_append, onEvents_lineClearStep, onEvents_nil]
  · simp [offEvents_append, offEvents_lineClearStep, offEvents_nil]
  · rw [(lineClearStep_keeps _ i).1]; exact hw
  · rw [(lineClearStep_keeps _ i).2.1]
    show (landmarkStep m sample i).1.samplesSinceTrigger + 1 = m.samplesSinceTrigger + 1
    rw [k2]

theorem processSample_quiet_high (m : PhaseDetectorSettings) (sample : Rat) (i : Nat)
    (hm : isTargetMatch m sample = false) (ht : m.wasTriggered = true)
    (hc : m.samplesSinceTrigger > 2000) :
    onEvents (processSample m sample i).2 = []
      ∧ offEvents (processSample m sample i).2 =
          [{ offset := i, line := m.outputLine, state := false, kind := .TRIGGER_OFF }]
      ∧ (processSample m sample i).1.wasTriggered = false := by
  obtain ⟨k1, k2, k3⟩ := landmarkStep_nontarget_keeps m sample i hm
  obtain ⟨c1, c2, c3, c4, c5, c6, c7⟩ := configEq_landmarkStep m sample i
  rw [processSample_decompose]
  have hw : ({ (landmarkStep m sample i).1 with lastSample := sample }).wasTriggered = true :=
    k1.trans ht
  have hcc : ({ (landmarkStep m sample i).1 with lastSample := sample }).samplesSinceTrigger
      > 2000 := by
    show (landmarkStep m sample i).1.samplesSinceTrigger > 2000
    rw [k2]; exact hc
  rw [timeoutStep_high _ i hw hcc, k3]
  refine ⟨?_, ?_, ?_⟩
  · simp [onEvents_append, onEvents_lineClearStep, onEvents_nil, onEvents_single_off,
      onEvents_cons_off]
  · have hline : ({ (landmarkStep m sample i).1 with lastSample := sample }).outputLine
        = m.outputLine := c3
    simp [offEvents_append, offEvents_lineClearStep, offEvents_nil, offEvents_single_off,
      offEvents_cons_off, hline, c3]
  · rw [(lineClearStep_keeps _ i).1]

theorem processSample_target (m : PhaseDetectorSettings) (sample : Rat) (i : Nat)
    (hm : isTargetMatch m sample = true) :
    onEvents (processSample m sample i).2 =
        [{ offset := i, line := m.outputLine, state := true, kind := .TRIGGER_ON }]
      ∧ offEvents (processSample m sample i).2 = []
      ∧ (processSample m sample i).1.wasTriggered = true
      ∧ (processSample m sample i).1.samplesSinceTrigger = 1 := by
  obtain ⟨k1, k2, k3⟩ := landmarkStep_target_info m sample i hm
  rw [processSample_decompose]
  have hw : ({ (landmarkStep m sample i).1 with lastSample := sample }).wasTriggered = true :=
    k2
  have hcc : ¬ ({ (landmarkStep m sample i).1 with lastSample := sample }).samplesSinceTrigger
      > 2000 := by
    show ¬ (landmarkStep m sample i).1.samplesSinceTrigger > 2000
    rw [k3]; omega
  rw [timeoutStep_low _ i hw hcc, k1]
  refine ⟨?_, ?_, ?_, ?_⟩
  · simp [onEvents_append, onEvents_lineClearStep, onEvents_nil, onEvents_single_on,
      onEvents_cons_on]
  · simp [offEvents_append, offEvents_lineClearStep, offEvents_nil, offEvents_single_on,
      offEvents_cons_on]
  · rw [(lineClearStep_keeps _ i).1]; exact hw
  · rw [(lineClearStep_keeps _ i).2.1]
    show (landmarkStep m sample i).1.samplesSinceTrigger + 1 = 1
    rw [k3]; omega

theorem processLoop_nil (m : PhaseDetectorSettings) (i : Nat) :
    processLoop m [] i = (m, []) := rfl

theorem processLoop_cons (m : PhaseDetectorSettings) (s : Rat) (rest : List Rat) (i : Nat) :
    processLoop m (s :: rest) i =
      ((processLoop (processSample m s i).1 rest (i + 1)).1,
        (processSample m s i).2 ++ (processLoop (processSample m s i).1 rest (i + 1)).2) := rfl

theorem offRun : ∀ (samples : List Rat) (m : PhaseDetectorSettings) (i : Nat),
    m.wasTriggered = true → 1 ≤ m.samplesSinceTrigger → m.samplesSinceTrigger ≤ 2001 →
    m.samplesSinceTrigger + (samples.length : Int) = 2002 →
    NoTargetMatchRun m samples = true →
    onEvents (processLoop m samples i).2 = []
      ∧ offEvents (processLoop m samples i).2 =
          [{ offset := i + (samples.length - 1), line := m.outputLine, state := false,
             kind := .TRIGGER_OFF }] := by
  intro samples
  induction samples with
  | nil =>
      intro m i h1 h2 h3 h4 _
      simp at h4
      omega
  | cons s rest ih =>
      intro m i h1 h2 h3 h4 h5
      simp only [List.length_cons] at h4
      have hrun : isTargetMatch m s = false ∧ NoTargetMatchRun (stepState m s) rest = true := by
        simpa [NoTargetMatchRun, Bool.and_eq_true, Bool.not_eq_true'] using h5
      obtain ⟨hm, hrest⟩ := hrun
      rw [processLoop_cons]
      by_cases hc : m.samplesSinceTrigger > 2000
      · have hrest0 : rest = [] := by
          have : rest.length = 0 := by push_cast at h4; omega
          exact List.length_eq_zero.mp this
        subst hrest0
        obtain ⟨e1, e2, _⟩ := processSample_quiet_high m s i hm h1 hc
        rw [processLoop_nil]
        constructor
        · simp [onEvents_append, e1, onEvents_nil]
        · simp [offEvents_append, e2, offEvents_nil]
      · obtain ⟨e1, e2, e3, e4⟩ := processSample_quiet_low m s i hm h1 hc
        obtain ⟨_, _, hout, _, _, _, _⟩ := configEq_processSample m s i
        have hlen1 : 1 ≤ rest.length := by push_cast at h4; omega
        have t2 : 1 ≤ (processSample m s i).1.samplesSinceTrigger := by rw [e4]; omega
        have t3 : (processSample m s i).1.samplesSinceTrigger ≤ 2001 := by rw [e4]; omega
        have t4 : (processSample m s i).1.samplesSinceTrigger + (rest.length : Int) = 2002 := by
          rw [e4]; push_cast at h4 ⊢; omega
        have t5 : NoTargetMatchRun (processSample m s i).1 rest = true := by
          rw [stepState_eq]; exact hrest
        obtain ⟨ih1, ih2⟩ := ih (processSample m s i).1 (i + 1) e3 t2 t3 t4 t5
        constructor
        · rw [onEvents_append, e1, ih1]; rfl
        · rw [offEvents_append, e2, ih2]
          simp only [List.nil_append, List.length_cons]
          rw [hout]
          have harith : i + 1 + (rest.length - 1) = i + (rest.length + 1 - 1) := by omega
          rw [harith]

theorem stepState_lastSample (m : PhaseDetectorSettings) (s : Rat) :
    (stepState m s).lastSample = s := by
  unfold stepState
  rw [processSample_decompose]
  rw [(lineClearStep_keeps _ 0).2.2.2, (timeoutStep_keeps _ 0).2.1]

theorem firedPhase_flat (m : PhaseDetectorSettings) (s : Rat) (h : m.lastSample = s) :
    firedPhase m s = none := by
  unfold firedPhase
  rw [h]
  split_ifs with h1 h2 h3 h4
  · exact absurd h1.1 (lt_irrefl s)
  · exact absurd h2.2.1 (not_le.mpr h2.1)
  · exact absurd h3.1 (lt_irrefl s)
  · exact absurd h4.2.1 (not_le.mpr h4.1)
  · rfl

theorem noTargetMatchRun_const : ∀ (n : Nat) (m : PhaseDetectorSettings) (s : Rat),
    m.lastSample = s → NoTargetMatchRun m (List.replicate n s) = true := by
  intro n
  induction n with
  | zero => intro m s _; rfl
  | succ n ih =>
      intro m s h
      have hts : isTargetMatch m s = false := isTargetMatch_none (firedPhase_flat m s h)
      simp only [List.replicate_succ, NoTargetMatchRun, hts, Bool.not_false, Bool.true_and]
      exact ih (stepState m s) s (stepState_lastSample m s)

/-- C3: if the target landmark fires at offset `k` from an untriggered state
(the loop emits `TRIGGER_ON` at `k`) and no target landmark fires on the
following 2001 samples of the run, the loop emits exactly one `TRIGGER_OFF`,
at offset `k + 2001`, on the same output line: `createEvent` resets
`samplesSinceTrigger` to 0, each later sample increments it while it is at
most 2000, and the off fires at the first sample where it exceeds 2000.
(While the detector stays active with a valid channel, `process` runs
exactly this loop.) -/
theorem c3_pulse_width_bound (m : PhaseDetectorSettings) (s : Rat) (rest : List Rat) (k : Nat)
    (h0 : m.wasTriggered = false) (hm : isTargetMatch m s = true)
    (hrun : NoTargetMatchRun (stepState m s) rest = true) (hlen : rest.length = 2001) :
    onEvents (processLoop m (s :: rest) k).2 =
        [{ offset := k, line := m.outputLine, state := true, kind := .TRIGGER_ON }]
      ∧ offEvents (processLoop m (s :: rest) k).2 =
        [{ offset := k + 2001, line := m.outputLine, state := false, kind := .TRIGGER_OFF }] := by
  clear h0
  rw [processLoop_cons]
  obtain ⟨e1, e2, e3, e4⟩ := processSample_target m s k hm
  obtain ⟨_, _, hout, _, _, _, _⟩ := configEq_processSample m s k
  have t5 : NoTargetMatchRun (processSample m s k).1 rest = true := by
    rw [stepState_eq]; exact hrun
  obtain ⟨r1, r2⟩ := offRun rest (processSample m s k).1 (k + 1) e3 (by rw [e4])
    (by rw [e4]; omega) (by rw [e4, hlen]; norm_num) t5
  constructor
  · rw [onEvents_append, e1, r1]
    exact List.append_nil _
  · rw [offEvents_append, e2, r2, hout, hlen]
    simp only [List.nil_append]

/-- C3 witness: a trough fires at offset 5 from a flat-continuation state;
the matching off-trigger lands at offset 2006. -/
theorem c3_pulse_width_bound_witness :
    c3Settings.wasTriggered = false
      ∧ isTargetMatch c3Settings (-1) = true
      ∧ NoTargetMatchRun (stepState c3Settings (-1)) (List.replicate 2001 (-1)) = true
      ∧ (List.replicate (2001 : Nat) (-1 : Rat)).length = 2001
      ∧ (onEvents (processLoop c3Settings ((-1) :: List.replicate 2001 (-1)) 5).2 =
          [{ offset := 5, line := 0, state := true, kind := .TRIGGER_ON }]
        ∧ offEvents (processLoop c3Settings ((-1) :: List.replicate 2001 (-1)) 5).2 =
          [{ offset := 5 + 2001, line := 0, state := false, kind := .TRIGGER_OFF }]) := by
  refine ⟨rfl, by with_unfolding_all decide, ?_, List.length_replicate 2001 (-1), ?_⟩
  · exact noTargetMatchRun_const 2001 _ (-1) (stepState_lastSample _ _)
  · exact c3_pulse_width_bound c3Settings (-1) _ 5 rfl (by with_unfolding_all decide)
      (noTargetMatchRun_const 2001 _ (-1) (stepState_lastSample _ _))
      (List.length_replicate 2001 (-1))

/-- C9: a target-landmark match while `wasTriggered` is already true emits
another `TRIGGER_ON` with no intervening `TRIGGER_OFF` (even if the counter
was past the ceiling, `createEvent` resets it before the timeout check), and
the eventual timeout `TRIGGER_OFF` lands 2001 samples after this most recent
`TRIGGER_ON`. -/
theorem c9_retrigger_resets_timeout (m : PhaseDetectorSettings) (s : Rat) (rest : List Rat)
    (k : Nat) (h0 : m.wasTriggered = true) (hm : isTargetMatch m s = true)
    (hrun : NoTargetMatchRun (stepState m s) rest = true) (hlen : rest.length = 2001) :
    onEvents (processLoop m (s :: rest) k).2 =
        [{ offset := k, line := m.outputLine, state := true, kind := .TRIGGER_ON }]
      ∧ offEvents (processLoop m (s :: rest) k).2 =
        [{ offset := k + 2001, line := m.outputLine, state := false, kind := .TRIGGER_OFF }] := by
  clear h0
  rw [processLoop_cons]
  obtain ⟨e1, e2, e3, e4⟩ := processSample_target m s k hm
  obtain ⟨_, _, hout, _, _, _, _⟩ := configEq_processSample m s k
  have t5 : NoTargetMatchRun (processSample m s k).1 rest = true := by
    rw [stepState_eq]; exact hrun
  obtain ⟨r1, r2⟩ := offRun rest (processSample m s k).1 (k + 1) e3 (by rw [e4])
    (by rw [e4]; omega) (by rw [e4, hlen]; norm_num) t5
  constructor
  · rw [onEvents_append, e1, r1]
    exact List.append_nil _
  · rw [offEvents_append, e2, r2, hout, hlen]
    simp only [List.nil_append]

/-- C9 witness: a second trough fires at offset 7 while a pulse with counter
1900 is still open; one on-event at 7, the only off-event at 2008. -/
theorem c9_retrigger_resets_timeout_witness :
    c9Settings.wasTriggered = true
      ∧ isTargetMatch c9Settings (-1) = true
      ∧ NoTargetMatchRun (stepState c9Settings (-1)) (List.replicate 2001 (-1)) = true
      ∧ (List.replicate (2001 : Nat) (-1 : Rat)).length = 2001
      ∧ (onEvents (processLoop c9Settings ((-1) :: List.replicate 2001 (-1)) 7).2 =
          [{ offset := 7, line := 0, state := true, kind := .TRIGGER_ON }]
        ∧ offEvents (processLoop c9Settings ((-1) :: List.replicate 2001 (-1)) 7).2 =
          [{ offset := 7 + 2001, line := 0, state := false, kind := .TRIGGER_OFF }]) := by
  refine ⟨rfl, by with_unfolding_all decide, ?_, List.length_replicate 2001 (-1), ?_⟩
  · exact noTargetMatchRun_const 2001 _ (-1) (stepState_lastSample _ _)
  · exact c9_retrigger_resets_timeout c9Settings (-1) _ 7 rfl (by with_unfolding_all decide)
      (noTargetMatchRun_const 2001 _ (-1) (stepState_lastSample _ _))
      (List.length_replicate 2001 (-1))

/-- C7: reconfiguring the gate line to `L` stores `L` and immediately
re-derives `isActive` from the cached TTL word: forced true when `L < 0`,
otherwise equal to bit `L` of `lastTTLWord`, with no new digital event
needed.  (`L < 64` reflects the 64-bit TTL word; the registered line
parameters range over `-1 .. 15`.) -/
theorem c7_gate_rederivation (m : PhaseDetectorSettings) (L : Int) (hL : L < 64) :
    (parameterValueChanged m (.gateLine L)).gateLine = L
      ∧ (L < 0 → (parameterValueChanged m (.gateLine L)).isActive = true)
      ∧ (0 ≤ L → (parameterValueChanged m (.gateLine L)).isActive
          = m.lastTTLWord.testBit L.toNat) := by
  simp only [parameterValueChanged]
  by_cases h0 : 0 ≤ L
  · rw [if_pos h0]
    refine ⟨rfl, fun hneg => absurd h0 (not_le.mpr hneg), fun _ => ?_⟩
    show decide ((m.lastTTLWord &&& ((1 <<< L.toNat) % 2 ^ 64)) ≠ 0)
        = m.lastTTLWord.testBit L.toNat
    have hlt : (2 : Nat) ^ L.toNat < 2 ^ 64 := by
      have h64 : L.toNat < 64 := by omega
      exact Nat.pow_lt_pow_right (by norm_num) h64
    rw [Nat.shiftLeft_eq, one_mul, Nat.mod_eq_of_lt hlt, Nat.and_two_pow]
    cases hb : m.lastTTLWord.testBit L.toNat <;> simp
  · rw [if_neg h0]
    exact ⟨rfl, fun _ => rfl, fun hge => absurd hge h0⟩

/-- C7 witness: gate line set to 3 while bit 3 of the cached word (8) is
set makes the detector immediately active. -/
theorem c7_gate_rederivation_witness :
    ((3 : Int) < 64)
      ∧ ((parameterValueChanged { initialSettings with lastTTLWord := 8 }
            (.gateLine 3)).gateLine = 3
        ∧ ((3 : Int) < 0 →
            (parameterValueChanged { initialSettings with lastTTLWord := 8 }
              (.gateLine 3)).isActive = true)
        ∧ ((0 : Int) ≤ 3 →
            (parameterValueChanged { initialSettings with lastTTLWord := 8 }
              (.gateLine 3)).isActive =
              ({ initialSettings with lastTTLWord := 8 } :
                PhaseDetectorSettings).lastTTLWord.testBit (3 : Int).toNat)) :=
  ⟨by norm_num, c7_gate_rederivation { initialSettings with lastTTLWord := 8 } 3 (by norm_num)⟩

/-- C2 counterexample: with an open pulse, an active detector and
`triggerChannel = 5` against a 1-channel buffer (an out-of-range but
non-negative index), the end-of-block check fires no `TRIGGER_OFF` and
leaves `wasTriggered` true — the forced off only tests `triggerChannel < 0`
or inactivity, not out-of-range indices. -/
theorem c2_out_of_range_counterexample :
    c2Settings.wasTriggered = true
      ∧ c2Settings.isActive = true
      ∧ c2Settings.triggerChannel = 5
      ∧ c2Block.numChannels = 1
      ∧ processBlock c2Settings c2Block = (c2Settings, []) := by
  exact ⟨rfl, rfl, rfl, rfl, rfl⟩

/-- C2 amended: for every block, if `wasTriggered` is true and either
`triggerChannel < 0` (unset) or `isActive` is false, the block emits
exactly one `TRIGGER_OFF`, at the block's first sample index (offset 0) on
`outputLine`, and `wasTriggered` becomes false.  (An out-of-range but
non-negative `triggerChannel` does not force the off; it only disables the
loop.) -/
theorem c2_forced_off (m : PhaseDetectorSettings) (b : AudioBlock)
    (ht : m.wasTriggered = true) (h2 : m.triggerChannel < 0 ∨ m.isActive = false) :
    processBlock m b =
      ({ m with wasTriggered := false },
       [{ offset := 0, line := m.outputLine, state := false, kind := .TRIGGER_OFF }]) := by
  have hg : emitGuard m b.numChannels = false := by
    unfold emitGuard
    rcases h2 with h | h
    · have hnn : ¬ (m.triggerChannel ≥ 0) := by omega
      simp [hnn]
    · simp [h]
  have hcond : (m.wasTriggered && (decide (m.triggerChannel < 0) || !m.isActive)) = true := by
    rcases h2 with h | h <;> simp [ht, h]
  unfold processBlock endOfBlock PhaseDetectorSettings.createEvent
  simp only [hg, Bool.false_eq_true, if_false, hcond, if_true]
  simp

/-- C2 amended witness: an inactive detector with an open pulse gets one
forced `TRIGGER_OFF` at offset 0 and ends untriggered. -/
theorem c2_forced_off_witness :
    c2wSettings.wasTriggered = true
      ∧ (c2wSettings.triggerChannel < 0 ∨ c2wSettings.isActive = false)
      ∧ processBlock c2wSettings c2Block =
          ({ c2wSettings with wasTriggered := false },
           [{ offset := 0, line := c2wSettings.outputLine, state := false,
              kind := .TRIGGER_OFF }]) :=
  ⟨rfl, Or.inr rfl, c2_forced_off c2wSettings c2Block rfl (Or.inr rfl)⟩

/-- C4 counterexample: with the guard failing (`isActive = false`) and a
block whose trigger-channel data is `[1]`, the loop is skipped, so
`lastSample` stays `0` instead of advancing to the block's final sample
`1`. -/
theorem c4_lastSample_not_advanced :
    c4Settings.isActive = false
      ∧ blockSamples c4Block c4Settings.triggerChannel = [1]
      ∧ (processBlock c4Settings c4Block).1.lastSample = 0
      ∧ (0 : Rat) ≠ 1 := by
  refine ⟨rfl, rfl, rfl, by norm_num⟩

/-- C4 amended: when the emission preconditions fail (detector inactive,
`outputLine < 0` or invalid trigger channel), the whole per-sample loop is
skipped: `lastSample` is left unchanged (it does not advance through the
block's samples), and the timeout bookkeeping (`samplesSinceTrigger`) and
phase memory are likewise untouched. -/
theorem c4_guard_fail_state (m : PhaseDetectorSettings) (b : AudioBlock)
    (hg : emitGuard m b.numChannels = false) :
    (processBlock m b).1.lastSample = m.lastSample
      ∧ (processBlock m b).1.samplesSinceTrigger = m.samplesSinceTrigger
      ∧ (processBlock m b).1.currentPhase = m.currentPhase := by
  unfold processBlock endOfBlock PhaseDetectorSettings.createEvent
  simp only [hg, Bool.false_eq_true, if_false]
  split_ifs <;> (try contradiction) <;> exact ⟨rfl, rfl, rfl⟩

/-- C4 amended witness: the inactive-block instance evaluated. -/
theorem c4_guard_fail_state_witness :
    emitGuard c4Settings c4Block.numChannels = false
      ∧ ((processBlock c4Settings c4Block).1.lastSample = c4Settings.lastSample
        ∧ (processBlock c4Settings c4Block).1.samplesSinceTrigger
            = c4Settings.samplesSinceTrigger
        ∧ (processBlock c4Settings c4Block).1.currentPhase = c4Settings.currentPhase) :=
  ⟨rfl, c4_guard_fail_state c4Settings c4Block rfl⟩

theorem configEq_clearTrigger (m : PhaseDetectorSettings) :
    ConfigEq m { m with wasTriggered := false } := by
  unfold ConfigEq; simp

theorem processSample_clear_off (m : PhaseDetectorSettings) (sample : Rat) (i : Nat)
    (hf : m.outputLineChanged = false) :
    clearEvents (processSample m sample i).2 = []
      ∧ (processSample m sample i).1.outputLineChanged = false := by
  rw [processSample_decompose]
  have hmid : (timeoutStep { (landmarkStep m sample i).1 with lastSample := sample } i).1.outputLineChanged
      = false := by
    rw [(timeoutStep_keeps _ i).2.2]
    show (landmarkStep m sample i).1.outputLineChanged = false
    rw [(landmarkStep_keeps m sample i).1]
    exact hf
  rw [lineClearStep_off _ i hmid]
  refine ⟨?_, hmid⟩
  rw [clearEvents_append, clearEvents_append, clearEvents_landmarkStep,
    clearEvents_timeoutStep, clearEvents_nil]
  rfl

theorem processSample_clear_on (m : PhaseDetectorSettings) (sample : Rat) (i : Nat)
    (hf : m.outputLineChanged = true) :
    clearEvents (processSample m sample i).2 =
        [{ offset := i, line := m.lastOutputLine, state := false, kind := .LINE_CLEAR }]
      ∧ (processSample m sample i).1.outputLineChanged = false := by
  rw [processSample_decompose]
  have hcfg : ConfigEq m
      (timeoutStep { (landmarkStep m sample i).1 with lastSample := sample } i).1 :=
    configEq_trans
      (configEq_trans (configEq_landmarkStep m sample i)
        (configEq_setLastSample (landmarkStep m sample i).1 sample))
      (configEq_timeoutStep _ i)
  have hmid : (timeoutStep { (landmarkStep m sample i).1 with lastSample := sample } i).1.outputLineChanged
      = true := by
    rw [(timeoutStep_keeps _ i).2.2]
    show (landmarkStep m sample i).1.outputLineChanged = true
    rw [(landmarkStep_keeps m sample i).1]
    exact hf
  rw [lineClearStep_on _ i hmid]
  constructor
  · rw [clearEvents_append, clearEvents_append, clearEvents_landmarkStep,
      clearEvents_timeoutStep, clearEvents_single_clear, hcfg.2.2.2.1]
    rfl
  · rfl

theorem processLoop_clear_flagFalse : ∀ (samples : List Rat) (m : PhaseDetectorSettings) (i : Nat),
    m.outputLineChanged = false →
    clearEvents (processLoop m samples i).2 = []
      ∧ (processLoop m samples i).1.outputLineChanged = false := by
  intro samples
  induction samples with
  | nil => intro m i hf; exact ⟨rfl, hf⟩
  | cons s rest ih =>
      intro m i hf
      obtain ⟨e1, e2⟩ := processSample_clear_off m s i hf
      obtain ⟨r1, r2⟩ := ih (processSample m s i).1 (i + 1) e2
      rw [processLoop_cons]
      exact ⟨by rw [clearEvents_append, e1, r1]; rfl, r2⟩

theorem processLoop_clear_flagTrue (samples : List Rat) (m : PhaseDetectorSettings) (i : Nat)
    (hf : m.outputLineChanged = true) (hne : samples ≠ []) :
    clearEvents (processLoop m samples i).2 =
        [{ offset := i, line := m.lastOutputLine, state := false, kind := .LINE_CLEAR }]
      ∧ (processLoop m samples i).1.outputLineChanged = false := by
  match samples, hne with
  | s :: rest, _ =>
      obtain ⟨e1, e2⟩ := processSample_clear_on m s i hf
      obtain ⟨r1, r2⟩ := processLoop_clear_flagFalse rest (processSample m s i).1 (i + 1) e2
      rw [processLoop_cons]
      refine ⟨?_, r2⟩
      rw [clearEvents_append, e1, r1]
      rfl

theorem configEq_createEvent (m : PhaseDetectorSettings) (o : Nat) (st : Bool) :
    ConfigEq m (m.createEvent o st).1 := by
  unfold PhaseDetectorSettings.createEvent ConfigEq
  split_ifs <;> simp

theorem createEvent_false (m : PhaseDetectorSettings) (o : Nat) :
    m.createEvent o false =
      ({ m with wasTriggered := false },
       { offset := o, line := m.outputLine, state := false, kind := .TRIGGER_OFF }) := rfl

theorem createEvent_true (m : PhaseDetectorSettings) (o : Nat) :
    m.createEvent o true =
      ({ m with samplesSinceTrigger := 0, wasTriggered := true },
       { offset := o, line := m.outputLine, state := true, kind := .TRIGGER_ON }) := rfl

theorem endOfBlock_keeps (a : PhaseDetectorSettings × List TTLEventRec) :
    clearEvents (endOfBlock a).2 = clearEvents a.2
      ∧ (endOfBlock a).1.outputLineChanged = a.1.outputLineChanged
      ∧ ConfigEq a.1 (endOfBlock a).1 := by
  unfold endOfBlock
  split_ifs with h
  · simp only [createEvent_false]
    refine ⟨?_, ?_, ?_⟩
    · rw [clearEvents_append]
      simp [clearEvents]
    · trivial
    · unfold ConfigEq
      simp
  · exact ⟨rfl, rfl, configEq_refl a.1⟩

theorem configEq_processBlock (m : PhaseDetectorSettings) (b : AudioBlock) :
    ConfigEq m (processBlock m b).1 := by
  unfold processBlock
  by_cases hg : emitGuard m b.numChannels
  · simp only [hg, if_true]
    exact configEq_trans (configEq_processLoop (blockSamples b m.triggerChannel) m 0)
      (endOfBlock_keeps _).2.2
  · simp only [hg, Bool.false_eq_true, if_false]
    exact (endOfBlock_keeps ((m, []) : PhaseDetectorSettings × List TTLEventRec)).2.2

theorem processBlock_clear_flagFalse (m : PhaseDetectorSettings) (b : AudioBlock)
    (hf : m.outputLineChanged = false) :
    clearEvents (processBlock m b).2 = []
      ∧ (processBlock m b).1.outputLineChanged = false := by
  unfold processBlock
  by_cases hg : emitGuard m b.numChannels
  · simp only [hg, if_true]
    obtain ⟨l1, l2⟩ := processLoop_clear_flagFalse (blockSamples b m.triggerChannel) m 0 hf
    refine ⟨?_, ?_⟩
    · rw [(endOfBlock_keeps _).1, l1]
    · rw [(endOfBlock_keeps _).2.1, l2]
  · simp only [hg, Bool.false_eq_true, if_false]
    refine ⟨?_, ?_⟩
    · rw [(endOfBlock_keeps _).1]
      rfl
    · rw [(endOfBlock_keeps _).2.1]
      exact hf

theorem processBlock_clear_flagTrue_skip (m : PhaseDetectorSettings) (b : AudioBlock)
    (hf : m.outputLineChanged = true) :
    (clearEvents (processBlock m b).2 = []
        ∧ (processBlock m b).1.outputLineChanged = true)
      ∨ (clearEvents (processBlock m b).2 =
          [{ offset := 0, line := m.lastOutputLine, state := false, kind := .LINE_CLEAR }]
        ∧ (processBlock m b).1.outputLineChanged = false) := by
  unfold processBlock
  by_cases hg : emitGuard m b.numChannels
  · simp only [hg, if_true]
    by_cases hne : blockSamples b m.triggerChannel = []
    · left
      rw [hne]
      refine ⟨?_, ?_⟩
      · rw [(endOfBlock_keeps _).1, processLoop_nil]
        rfl
      · rw [(endOfBlock_keeps _).2.1, processLoop_nil]
        exact hf
    · right
      obtain ⟨l1, l2⟩ := processLoop_clear_flagTrue (blockSamples b m.triggerChannel) m 0 hf hne
      refine ⟨?_, ?_⟩
      · rw [(endOfBlock_keeps _).1, l1]
      · rw [(endOfBlock_keeps _).2.1, l2]
  · simp only [hg, Bool.false_eq_true, if_false]
    left
    refine ⟨?_, ?_⟩
    · rw [(endOfBlock_keeps _).1]
      rfl
    · rw [(endOfBlock_keeps _).2.1]
      exact hf

theorem processBlock_clear_flagTrue_run (m : PhaseDetectorSettings) (b : AudioBlock)
    (hf : m.outputLineChanged = true) (hg : emitGuard m b.numChannels = true)
    (hn : 1 ≤ b.numSamples) :
    clearEvents (processBlock m b).2 =
        [{ offset := 0, line := m.lastOutputLine, state := false, kind := .LINE_CLEAR }]
      ∧ (processBlock m b).1.outputLineChanged = false := by
  have hne : blockSamples b m.triggerChannel ≠ [] := by
    have hlen : (blockSamples b m.triggerChannel).length = b.numSamples := by
      unfold blockSamples
      rw [List.length_map, List.length_range]
    intro hnil
    rw [hnil] at hlen
    simp at hlen
    omega
  obtain ⟨l1, l2⟩ := processLoop_clear_flagTrue (blockSamples b m.triggerChannel) m 0 hf hne
  unfold processBlock
  simp only [hg, if_true]
  refine ⟨?_, ?_⟩
  · rw [(endOfBlock_keeps _).1, l1]
  · rw [(endOfBlock_keeps _).2.1, l2]

theorem processBlocks_nil (m : PhaseDetectorSettings) : processBlocks m [] = (m, []) := rfl

theorem processBlocks_cons (m : PhaseDetectorSettings) (b : AudioBlock) (rest : List AudioBlock) :
    processBlocks m (b :: rest) =
      ((processBlocks (processBlock m b).1 rest).1,
        (processBlock m b).2 ++ (processBlocks (processBlock m b).1 rest).2) := rfl

theorem processBlocks_clear_flagFalse : ∀ (bs : List AudioBlock) (m : PhaseDetectorSettings),
    m.outputLineChanged = false →
    clearEvents (processBlocks m bs).2 = []
      ∧ (processBlocks m bs).1.outputLineChanged = false := by
  intro bs
  induction bs with
  | nil => intro m hf; exact ⟨rfl, hf⟩
  | cons b rest ih =>
      intro m hf
      obtain ⟨e1, e2⟩ := processBlock_clear_flagFalse m b hf
      obtain ⟨r1, r2⟩ := ih (processBlock m b).1 e2
      rw [processBlocks_cons]
      exact ⟨by rw [clearEvents_append, e1, r1]; rfl, r2⟩

theorem processBlocks_clear_bound : ∀ (bs : List AudioBlock) (m : PhaseDetectorSettings),
    (clearEvents (processBlocks m bs).2).length ≤ 1
      ∧ ∀ e ∈ clearEvents (processBlocks m bs).2, e.line = m.lastOutputLine := by
  intro bs
  induction bs with
  | nil => intro m; exact ⟨by simp [processBlocks_nil, clearEvents_nil], by simp [processBlocks_nil, clearEvents_nil]⟩
  | cons b rest ih =>
      intro m
      have hlast : (processBlock m b).1.lastOutputLine = m.lastOutputLine :=
        (configEq_processBlock m b).2.2.2.1
      rw [processBlocks_cons, clearEvents_append]
      rcases hf : m.outputLineChanged with _ | _
      · obtain ⟨e1, e2⟩ := processBlock_clear_flagFalse m b hf
        obtain ⟨r1, r2⟩ := ih (processBlock m b).1
        rw [e1]
        constructor
        · simpa using r1
        · intro e he
          simp only [List.nil_append] at he
          rw [r2 e he, hlast]
      · rcases processBlock_clear_flagTrue_skip m b hf with ⟨e1, _⟩ | ⟨e1, e2⟩
        · obtain ⟨r1, r2⟩ := ih (processBlock m b).1
          rw [e1]
          constructor
          · simpa using r1
          · intro e he
            simp only [List.nil_append] at he
            rw [r2 e he, hlast]
        · obtain ⟨r1, r2⟩ := processBlocks_clear_flagFalse rest (processBlock m b).1 e2
          rw [e1, r1]
          constructor
          · simp
          · intro e he
            simp only [List.append_nil, List.mem_singleton] at he
            rw [he]

/-- C5 counterexample: after reconfiguring the output line (5 replacing 0)
while the detector is gated inactive, the next processed block emits no
`LINE_CLEAR` at all (the flag survives), and the clear is emitted later, on
a subsequent block processed after the gate is disabled — contradicting
"exactly one LINE_CLEAR at the first sample of the next processed block,
and never on any subsequent block". -/
theorem c5_deferred_clear_counterexample :
    c5mInactive.outputLineChanged = true
      ∧ c5mInactive.isActive = false
      ∧ clearEvents (processBlock c5mInactive c5Block).2 = []
      ∧ (processBlock c5mInactive c5Block).1.outputLineChanged = true
      ∧ clearEvents (processBlock c5mReactivated c5Block).2 =
          [{ offset := 0, line := 0, state := false, kind := .LINE_CLEAR }] := by
  with_unfolding_all decide

/-- C5 amended: a single output-line reconfiguration produces exactly one
`LINE_CLEAR`, on the old line, at the first sample (offset 0) of the next
block processed with the emission preconditions passing and at least one
sample; the flag is cleared by that emission (independently of landmark or
timeout emissions at the same sample), and no `LINE_CLEAR` is emitted on
any subsequent block. -/
theorem c5_line_clear_once (m : PhaseDetectorSettings) (v : Int) (b : AudioBlock)
    (hg : emitGuard (parameterValueChanged m (.ttlOut v)) b.numChannels = true)
    (hn : 1 ≤ b.numSamples) :
    clearEvents (processBlock (parameterValueChanged m (.ttlOut v)) b).2 =
        [{ offset := 0, line := m.outputLine, state := false, kind := .LINE_CLEAR }]
      ∧ (processBlock (parameterValueChanged m (.ttlOut v)) b).1.outputLineChanged = false
      ∧ ∀ bs : List AudioBlock,
          clearEvents
            (processBlocks (processBlock (parameterValueChanged m (.ttlOut v)) b).1 bs).2
            = [] := by
  have hf : (parameterValueChanged m (.ttlOut v)).outputLineChanged = true := rfl
  have hlast : (parameterValueChanged m (.ttlOut v)).lastOutputLine = m.outputLine := rfl
  obtain ⟨e1, e2⟩ :=
    processBlock_clear_flagTrue_run (parameterValueChanged m (.ttlOut v)) b hf hg hn
  exact ⟨by rw [e1, hlast], e2, fun bs => (processBlocks_clear_flagFalse bs _ e2).1⟩

/-- C5 amended witness: reconfigure `0 → 5` on an active default detector,
process one 1-sample block: one `LINE_CLEAR` on line 0 at offset 0, flag
cleared, and no clear on any block afterwards. -/
theorem c5_line_clear_once_witness :
    emitGuard (parameterValueChanged initialSettings (.ttlOut 5)) c5Block.numChannels = true
      ∧ 1 ≤ c5Block.numSamples
      ∧ (clearEvents (processBlock (parameterValueChanged initialSettings (.ttlOut 5)) c5Block).2 =
          [{ offset := 0, line := 0, state := false, kind := .LINE_CLEAR }]
        ∧ (processBlock (parameterValueChanged initialSettings (.ttlOut 5)) c5Block).1.outputLineChanged
            = false
        ∧ ∀ bs : List AudioBlock,
            clearEvents
              (processBlocks
                (processBlock (parameterValueChanged initialSettings (.ttlOut 5)) c5Block).1 bs).2
              = []) :=
  ⟨rfl, by decide, c5_line_clear_once initialSettings 5 c5Block rfl (by decide)⟩

/-- C10: reconfiguring the output line twice in a row (A to B, then B to C)
with no block in between leaves `lastOutputLine = B` and `outputLine = C`;
over any sequence of subsequently processed blocks at most one `LINE_CLEAR`
is emitted, it targets the intermediate line B, and (when A differed from
B) the original line A never receives a `LINE_CLEAR`. -/
theorem c10_double_reconfiguration (m : PhaseDetectorSettings) (A B C : Int)
    (hA : m.outputLine = A) :
    (parameterValueChanged (parameterValueChanged m (.ttlOut B)) (.ttlOut C)).lastOutputLine = B
      ∧ (parameterValueChanged (parameterValueChanged m (.ttlOut B)) (.ttlOut C)).outputLine = C
      ∧ ∀ bs : List AudioBlock,
          (clearEvents (processBlocks
              (parameterValueChanged (parameterValueChanged m (.ttlOut B)) (.ttlOut C)) bs).2).length
            ≤ 1
          ∧ ∀ e ∈ clearEvents (processBlocks
              (parameterValueChanged (parameterValueChanged m (.ttlOut B)) (.ttlOut C)) bs).2,
              e.line = B ∧ (A ≠ B → e.line ≠ A) := by
  clear hA
  refine ⟨rfl, rfl, fun bs => ?_⟩
  obtain ⟨h1, h2⟩ := processBlocks_clear_bound bs
    (parameterValueChanged (parameterValueChanged m (.ttlOut B)) (.ttlOut C))
  refine ⟨h1, fun e he => ?_⟩
  have hB : e.line = B := h2 e he
  refine ⟨hB, fun hAB => ?_⟩
  rw [hB]
  exact fun h => hAB h.symm

/-- C10 witness: lines 0 → 1 → 2 on the default state. -/
theorem c10_double_reconfiguration_witness :
    initialSettings.outputLine = 0
      ∧ ((parameterValueChanged (parameterValueChanged initialSettings (.ttlOut 1))
            (.ttlOut 2)).lastOutputLine = 1
        ∧ (parameterValueChanged (parameterValueChanged initialSettings (.ttlOut 1))
            (.ttlOut 2)).outputLine = 2
        ∧ ∀ bs : List AudioBlock,
            (clearEvents (processBlocks
                (parameterValueChanged (parameterValueChanged initialSettings (.ttlOut 1))
                  (.ttlOut 2)) bs).2).length ≤ 1
            ∧ ∀ e ∈ clearEvents (processBlocks
                (parameterValueChanged (parameterValueChanged initialSettings (.ttlOut 1))
                  (.ttlOut 2)) bs).2,
                e.line = 1 ∧ ((0 : Int) ≠ 1 → e.line ≠ 0)) :=
  ⟨rfl, c10_double_reconfiguration initialSettings 0 1 2 rfl⟩

theorem timeoutStep_events_cases (m : PhaseDetectorSettings) (i : Nat) :
    (timeoutStep m i).2 = []
      ∨ (timeoutStep m i).2 =
        [{ offset := i, line := m.outputLine, state := false, kind := .TRIGGER_OFF }] := by
  by_cases ht : m.wasTriggered = true
  · by_cases hc : m.samplesSinceTrigger > 2000
    · right
      rw [timeoutStep_high m i ht hc]
    · left
      rw [timeoutStep_low m i ht hc]
  · left
    rw [timeoutStep_not_triggered m i (by simpa using ht)]

theorem lineClearStep_events_cases (m : PhaseDetectorSettings) (i : Nat) :
    (lineClearStep m i).2 = []
      ∨ (lineClearStep m i).2 =
        [{ offset := i, line := m.lastOutputLine, state := false, kind := .LINE_CLEAR }] := by
  by_cases hf : m.outputLineChanged = true
  · right
    rw [lineClearStep_on m i hf]
  · left
    rw [lineClearStep_off m i (by simpa using hf)]

theorem landmarkStep_events_cases (m : PhaseDetectorSettings) (sample : Rat) (i : Nat) :
    (landmarkStep m sample i).2 = []
      ∨ (landmarkStep m sample i).2 =
        [{ offset := i, line := m.outputLine, state := true, kind := .TRIGGER_ON }] := by
  by_cases hm : isTargetMatch m sample = true
  · right
    exact (landmarkStep_target_info m sample i hm).1
  · left
    exact (landmarkStep_nontarget_keeps m sample i (by simpa using hm)).2.2

theorem processSample_chain (m : PhaseDetectorSettings) (sample : Rat) (i : Nat) :
    List.Chain' EventLE (processSample m sample i).2
      ∧ ∀ e ∈ (processSample m sample i).2, e.offset = i := by
  rw [processSample_decompose]
  rcases landmarkStep_events_cases m sample i with hl | hl <;>
    rcases timeoutStep_events_cases
      { (landmarkStep m sample i).1 with lastSample := sample } i with ht | ht <;>
    rcases lineClearStep_events_cases
      (timeoutStep { (landmarkStep m sample i).1 with lastSample := sample } i).1 i
      with hc | hc <;>
    rw [hl, ht, hc] <;>
    constructor <;>
    simp [EventLE, kindRank, List.chain'_cons, List.chain'_singleton]

theorem processLoop_offsets : ∀ (samples : List Rat) (m : PhaseDetectorSettings) (i : Nat),
    ∀ e ∈ (processLoop m samples i).2, i ≤ e.offset := by
  intro samples
  induction samples with
  | nil => intro m i e he; cases he
  | cons s rest ih =>
      intro m i e he
      rw [processLoop_cons] at he
      rcases List.mem_append.mp he with h | h
      · rw [(processSample_chain m s i).2 e h]
      · have := ih (processSample m s i).1 (i + 1) e h
        omega

theorem processLoop_chain : ∀ (samples : List Rat) (m : PhaseDetectorSettings) (i : Nat),
    List.Chain' EventLE (processLoop m samples i).2 := by
  intro samples
  induction samples with
  | nil => intro m i; exact List.chain'_nil
  | cons s rest ih =>
      intro m i
      rw [processLoop_cons]
      refine List.Chain'.append (processSample_chain m s i).1 (ih (processSample m s i).1 (i + 1))
        (fun x hx y hy => ?_)
      left
      have hxo : x.offset = i :=
        (processSample_chain m s i).2 x (List.mem_of_mem_getLast? hx)
      have hyo : i + 1 ≤ y.offset :=
        processLoop_offsets rest (processSample m s i).1 (i + 1) y (List.mem_of_mem_head? hy)
      omega

/-- C8: for every processed block the emitted event sequence is in
non-decreasing sample-offset order, and events sharing an offset appear in
the fixed order landmark `TRIGGER_ON`, then timeout `TRIGGER_OFF`, then
`LINE_CLEAR` — `EventLE` orders by offset first and by that emission rank
second.  (The emission sequence is a deterministic function of the block
and the initial per-stream state by construction: `processBlock` is a pure
function.) -/
theorem c8_event_ordering (m : PhaseDetectorSettings) (b : AudioBlock) :
    List.Chain' EventLE (processBlock m b).2 := by
  unfold processBlock
  by_cases hg : emitGuard m b.numChannels
  · simp only [hg, if_true]
    unfold endOfBlock
    split_ifs with hend
    · exfalso
      obtain ⟨ha, htc, _, _, _, _, _⟩ := configEq_processLoop (blockSamples b m.triggerChannel) m 0
      unfold emitGuard at hg
      simp only [Bool.and_eq_true, decide_eq_true_eq] at hg
      obtain ⟨⟨⟨hact, _⟩, htcge⟩, _⟩ := hg
      rw [ha, htc, hact] at hend
      simp only [Bool.not_true, Bool.or_false, Bool.and_eq_true, decide_eq_true_eq] at hend
      obtain ⟨_, hlt⟩ := hend
      omega
    · exact processLoop_chain _ m 0
  · simp only [hg, Bool.false_eq_true, if_false]
    unfold endOfBlock
    split_ifs
    · simp only [createEvent_false]
      exact List.chain'_singleton _
    · exact List.chain'_nil

theorem processSample_no_on (m : PhaseDetectorSettings) (sample : Rat) (i : Nat)
    (hm : isTargetMatch m sample = false) :
    onEvents (processSample m sample i).2 = [] := by
  rcases ht : m.wasTriggered with _ | _
  · exact (processSample_quiet_untriggered m sample i hm ht).1
  · by_cases hc : m.samplesSinceTrigger > 2000
    · exact (processSample_quiet_high m sample i hm ht hc).1
    · exact (processSample_quiet_low m sample i hm ht hc).1

theorem processSample_on_le_one (m : PhaseDetectorSettings) (sample : Rat) (i : Nat) :
    (onEvents (processSample m sample i).2).length ≤ 1 := by
  by_cases hm : isTargetMatch m sample = true
  · rw [(processSample_target m sample i hm).1]
    simp
  · rw [processSample_no_on m sample i (by simpa using hm)]
    simp

theorem lockedRun : ∀ (samples : List Rat) (m : PhaseDetectorSettings) (i : Nat) (ph : PhaseType),
    m.currentPhase = ph → SameLandmarkRun ph m samples = true →
    onEvents (processLoop m samples i).2 = [] := by
  intro samples
  induction samples with
  | nil => intro m i ph _ _; rfl
  | cons s rest ih =>
      intro m i ph hph hrun
      simp only [SameLandmarkRun, Bool.and_eq_true, Bool.or_eq_true, decide_eq_true_eq] at hrun
      obtain ⟨hfired, hrest⟩ := hrun
      have hnone : firedPhase m s = none := by
        rcases hfired with h | h
        · exact h
        · exact absurd hph (firedPhase_ne m s ph h)
      rw [processLoop_cons, onEvents_append,
        processSample_no_on m s i (isTargetMatch_none hnone)]
      have hphase : (processSample m s i).1.currentPhase = ph := by
        rw [stepState_eq, stepState_currentPhase_none m s hnone]
        exact hph
      have hrest2 : SameLandmarkRun ph (processSample m s i).1 rest = true := by
        rw [stepState_eq]
        exact hrest
      rw [ih (processSample m s i).1 (i + 1) ph hphase hrest2]
      rfl

theorem sameRun_on_le_one : ∀ (samples : List Rat) (m : PhaseDetectorSettings) (i : Nat)
    (ph : PhaseType), SameLandmarkRun ph m samples = true →
    (onEvents (processLoop m samples i).2).length ≤ 1 := by
  intro samples
  induction samples with
  | nil =>
      intro m i ph _
      simp [processLoop_nil, onEvents_nil]
  | cons s rest ih =>
      intro m i ph hrun
      simp only [SameLandmarkRun, Bool.and_eq_true, Bool.or_eq_true, decide_eq_true_eq] at hrun
      obtain ⟨hfired, hrest⟩ := hrun
      rw [processLoop_cons, onEvents_append, List.length_append]
      have hrest2 : SameLandmarkRun ph (processSample m s i).1 rest = true := by
        rw [stepState_eq]
        exact hrest
      rcases hfired with hnone | hsome
      · rw [processSample_no_on m s i (isTargetMatch_none hnone)]
        simp only [List.length_nil, Nat.zero_add]
        exact ih (processSample m s i).1 (i + 1) ph hrest2
      · have hphase : (processSample m s i).1.currentPhase = ph := by
          rw [stepState_eq]
          exact stepState_currentPhase_some m s ph hsome
        rw [lockedRun rest (processSample m s i).1 (i + 1) ph hphase hrest2]
        simp only [List.length_nil, Nat.add_zero]
        exact processSample_on_le_one m s i

/-- C6: each landmark branch is guarded by `currentPhase` differing from the
phase it would set, `currentPhase` only changes when a branch fires, and so
a run on which every fired landmark is the same one (the waveform oscillates
across one landmark without crossing another type) emits at most one
landmark event. -/
theorem c6_no_retrigger_same_phase (ph : PhaseType) (m : PhaseDetectorSettings)
    (samples : List Rat) (i : Nat) (h : SameLandmarkRun ph m samples = true) :
    (onEvents (processLoop m samples i).2).length ≤ 1
      ∧ (∀ (m2 : PhaseDetectorSettings) (s2 : Rat) (ph2 : PhaseType),
          firedPhase m2 s2 = some ph2 → m2.currentPhase ≠ ph2)
      ∧ (∀ (m2 : PhaseDetectorSettings) (s2 : Rat),
          firedPhase m2 s2 = none → (stepState m2 s2).currentPhase = m2.currentPhase) :=
  ⟨sameRun_on_le_one samples m i ph h,
   fun m2 s2 ph2 h2 => firedPhase_ne m2 s2 ph2 h2,
   fun m2 s2 h2 => stepState_currentPhase_none m2 s2 h2⟩

/-- C6 witness: oscillating `-2, -1, -2, -1` across the trough landmark
(every fired branch sets `RISING_NEG`) from a `TROUGH`-targeting state. -/
theorem c6_no_retrigger_same_phase_witness :
    SameLandmarkRun .RISING_NEG c6Settings [-2, -1, -2, -1] = true
      ∧ ((onEvents (processLoop c6Settings [-2, -1, -2, -1] 0).2).length ≤ 1
        ∧ (∀ (m2 : PhaseDetectorSettings) (s2 : Rat) (ph2 : PhaseType),
            firedPhase m2 s2 = some ph2 → m2.currentPhase ≠ ph2)
        ∧ (∀ (m2 : PhaseDetectorSettings) (s2 : Rat),
            firedPhase m2 s2 = none → (stepState m2 s2).currentPhase = m2.currentPhase)) :=
  ⟨by with_unfolding_all decide,
   c6_no_retrigger_same_phase .RISING_NEG c6Settings [-2, -1, -2, -1] 0
     (by with_unfolding_all decide)⟩
